import Mathlib

/-!
Shallow embedding, in Lean 4, of the gap-detection / caching / generation
pipeline of the Self-Driving-Documentation-Improver repository, together with
theorems checking the natural-language specification against the code.

Conventions of the embedding:
* Python strings are `List Char` (`PyStr`); Python string methods used by the
  sources (`split`, `strip`, `lower`, `capitalize`, `startswith`, `in`,
  `join`, `encode`) are re-implemented character by character below.
* Python `int` is `Int`, byte values are `Nat`, and Python `float` fields are
  modelled as exact rationals (`Rat`).
* Fallible code (code that can raise) returns `Except`; the raised exception
  class name is carried as the error value.
* SQLite tables keyed by a PRIMARY KEY column are modelled as association
  lists together with the upsert (`INSERT OR REPLACE`), point `SELECT` and
  point `DELETE` operations the sources perform; `datetime.now()` is passed
  explicitly as an integer timestamp (seconds).
* `asyncio` batch execution is modelled by quantifying over every possible
  completion order (a permutation of the per-task results).
-/

set_option linter.unnecessarySeqFocus false
set_option linter.unusedVariables false

deriving instance DecidableEq for Except

namespace DocImprover

/-- Python strings are modelled as lists of characters (code points). -/
abbrev PyStr := List Char

/-- Coerce a Lean string literal into the `PyStr` model. -/
def toPyStr (s : String) : PyStr := s.data

/-- The characters removed by Python `str.strip()` with no argument
(ASCII whitespace: space, tab, newline, carriage return, vertical tab,
form feed). -/
def isPySpace (c : Char) : Bool :=
  c == ' ' || c == Char.ofNat 9 || c == Char.ofNat 10 || c == Char.ofNat 13 ||
  c == Char.ofNat 11 || c == Char.ofNat 12

/-- Remove characters satisfying `p` from both ends of a string, as Python
`str.strip` does. -/
def stripWith (p : Char → Bool) (s : PyStr) : PyStr :=
  ((s.dropWhile p).reverse.dropWhile p).reverse

/-- Python `s.strip()` (no argument): whitespace removed from both ends. -/
def pyStrip (s : PyStr) : PyStr := stripWith isPySpace s

/-- Python `s.strip` applied to the backtick character (codepoint 96), as in
the response parser's code-fence cleanup. -/
def stripBackticks (s : PyStr) : PyStr := stripWith (fun c => c == Char.ofNat 96) s

/-- Python `s.lower()`, modelled as per-character ASCII lowering; every string
the sources lower is compared against ASCII keyword lists. -/
def pyLower (s : PyStr) : PyStr := s.map Char.toLower

/-- Python `s.capitalize()`: first character uppercased, the rest lowercased. -/
def pyCapitalize : PyStr → PyStr
  | [] => []
  | c :: rest => Char.toUpper c :: rest.map Char.toLower

/-- Python `s.startswith(under)` for the one-character underscore argument
used by the severity table. -/
def startsWithUnderscore : PyStr → Bool
  | [] => false
  | c :: _ => c == '_'

/-- Python `needle in haystack` (substring containment). -/
def containsSub (needle : PyStr) : PyStr → Bool
  | [] => needle.isEmpty
  | c :: rest => needle.isPrefixOf (c :: rest) || containsSub needle rest

/-- Fuelled worker for `pySplit`; the fuel only serves to make the recursion
structural (so the kernel can evaluate it), and `pySplit` always supplies
enough of it. -/
def pySplitF (sep : PyStr) : Nat → PyStr → List PyStr
  | _, [] => [[]]
  | 0, _ :: _ => [[]]
  | fuel + 1, c :: rest =>
    if sep ≠ [] ∧ sep.isPrefixOf (c :: rest) then
      [] :: pySplitF sep fuel ((c :: rest).drop sep.length)
    else
      match pySplitF sep fuel rest with
      | [] => [[c]]
      | h :: t => (c :: h) :: t

/-- Python `s.split(sep)` for a non-empty separator: the list of segments
between consecutive non-overlapping occurrences of `sep`, scanned left to
right.  (CPython raises `ValueError` on an empty separator; the sources only
ever split on the non-empty literals below, so that case is irrelevant.) -/
def pySplit (sep s : PyStr) : List PyStr := pySplitF sep s.length s

/-- Python `any(k in s for k in keywords)`. -/
def hasAnyKeyword (keywords : List PyStr) (s : PyStr) : Bool :=
  keywords.any (fun k => containsSub k s)

/-- Python `str(n)` for a natural number. -/
def natToPyStr (n : Nat) : PyStr := Nat.toDigits 10 n

/-- Python `str(i)` for an integer. -/
def intToPyStr (i : Int) : PyStr :=
  if i < 0 then Char.ofNat 45 :: natToPyStr i.natAbs else natToPyStr i.toNat

/-- Python truthiness of an optional string (`None` and `""` are falsy). -/
def pyTruthy : Option PyStr → Bool
  | none => false
  | some s => !s.isEmpty

/-! ## `ClaudeClientV2._parse_response`
(`src/doc_improver/integrations/claude_client_v2.py`, lines 390-414).

Python list indexing `xs[i]` raises `IndexError` when `i` is out of range;
the embedding returns `Except.error` there, mirroring the evaluation order of
the source (the `doc_part` line runs before the `reasoning_part` line). -/

/-- The literal documentation marker of the two-section output format. -/
def doc_marker : PyStr := toPyStr "DOCUMENTATION:"

/-- The literal reasoning marker of the two-section output format. -/
def reasoning_marker : PyStr := toPyStr "REASONING:"

/-- The generic reasoning string returned by the fallback branch. -/
def generic_reasoning : PyStr := toPyStr "Generated comprehensive documentation"

/-- `ClaudeClientV2._parse_response`, translated line by line. -/
def parse_response (content : PyStr) : Except PyStr (PyStr × PyStr) :=
  if containsSub doc_marker content && containsSub reasoning_marker content then
    let parts := pySplit reasoning_marker content
    match parts[0]? with
    | none => Except.error (toPyStr "IndexError")
    | some p0 =>
      match (pySplit doc_marker p0)[1]? with
      | none => Except.error (toPyStr "IndexError")
      | some d1 =>
        match parts[1]? with
        | none => Except.error (toPyStr "IndexError")
        | some p1 =>
          let doc_part := pyStrip d1
          let reasoning_part := pyStrip p1
          let doc_part := pyStrip (stripBackticks doc_part)
          let reasoning_part := pyStrip (stripBackticks reasoning_part)
          Except.ok (doc_part, reasoning_part)
  else
    Except.ok (pyStrip content, generic_reasoning)

/-! ## Data model (`src/doc_improver/models.py`) -/

/-- `models.DocumentationType`: the kinds of documentation gap. -/
inductive DocumentationType where
  | missing_docstring
  | incomplete_docstring
  | missing_readme
  | missing_api_docs
  | missing_examples
  | outdated_docs
  | missing_installation
  | missing_usage
  | missing_parameters
  | missing_returns
  | missing_exceptions
  | unclear_description
deriving DecidableEq, BEq

/-- The string value backing each `DocumentationType` enum member. -/
def DocumentationType.value : DocumentationType → PyStr
  | .missing_docstring => toPyStr "missing_docstring"
  | .incomplete_docstring => toPyStr "incomplete_docstring"
  | .missing_readme => toPyStr "missing_readme"
  | .missing_api_docs => toPyStr "missing_api_docs"
  | .missing_examples => toPyStr "missing_examples"
  | .outdated_docs => toPyStr "outdated_docs"
  | .missing_installation => toPyStr "missing_installation"
  | .missing_usage => toPyStr "missing_usage"
  | .missing_parameters => toPyStr "missing_parameters"
  | .missing_returns => toPyStr "missing_returns"
  | .missing_exceptions => toPyStr "missing_exceptions"
  | .unclear_description => toPyStr "unclear_description"

/-- `models.Severity`: coarse priority ranking of a gap. -/
inductive Severity where
  | critical
  | high
  | medium
  | low
deriving DecidableEq, BEq

/-- One entry of `CodeEntity.parameters`: the analyzers build each parameter
as a dict holding the key `name` and, when a type hint exists, `type`. -/
structure Param where
  name : PyStr
  type : Option PyStr := none
deriving DecidableEq

/-- `models.CodeEntity`.  The free-form `context` dict is modelled as an
association list of optional string values (the sources only ever store and
read string-like entries such as the body text). -/
structure CodeEntity where
  name : PyStr
  type : PyStr
  file_path : PyStr
  line_number : Int
  signature : Option PyStr := none
  docstring : Option PyStr := none
  is_public : Bool := true
  complexity : Option Int := none
  parameters : List Param := []
  return_type : Option PyStr := none
  decorators : List PyStr := []
  context : Option (List (PyStr × Option PyStr)) := none
deriving DecidableEq

/-- `models.DocumentationGap`. -/
structure DocumentationGap where
  id : PyStr
  gap_type : DocumentationType
  severity : Severity
  location : PyStr
  entity : Option CodeEntity := none
  description : PyStr
  current_documentation : Option PyStr := none
  suggested_improvement : Option PyStr := none
  context : List (PyStr × Option PyStr) := []
deriving DecidableEq

/-- `models.GenerationConfig`.  The `temperature` float is modelled as an
exact rational. -/
structure GenerationConfig where
  api_key : Option PyStr := none
  model : PyStr := toPyStr "claude-3-5-sonnet-20241022"
  temperature : Rat := 3 / 10
  max_tokens : Int := 4000
  style : PyStr := toPyStr "google"
  include_examples : Bool := true
  include_type_hints : Bool := true
  auto_apply : Bool := false
deriving DecidableEq

/-! ## Gap detector (`src/doc_improver/analyzer/gap_detector.py`) -/

/-- `GapDetector._generate_gap_id` draws a fresh random UUID
(`str(uuid.uuid4())`); the draw is nondeterministic and no claim depends on
the id value, so it is modelled as an opaque-looking constant string. -/
def generate_gap_id : PyStr := toPyStr "uuid4"

/-- The parameter-section keywords recognized by the completeness check. -/
def param_section_keywords : List PyStr :=
  [toPyStr "args:", toPyStr "parameters:", toPyStr "arguments:",
   toPyStr "param ", toPyStr ":param"]

/-- The return-section keywords recognized by the completeness check. -/
def return_section_keywords : List PyStr :=
  [toPyStr "returns:", toPyStr "return:", toPyStr ":returns:", toPyStr ":return:"]

/-- The exception-section keywords recognized by the completeness check. -/
def exception_section_keywords : List PyStr :=
  [toPyStr "raises:", toPyStr "raise:", toPyStr "throws:", toPyStr ":raises:"]

/-- The example markers recognized by the usage-example check. -/
def example_section_keywords : List PyStr :=
  [toPyStr "example:", toPyStr "examples:", toPyStr ">>>", toPyStr "usage:"]

/-- `GapDetector._determine_severity`: the fixed severity precedence table.
The source's first branch nests the underscore test inside the
type-and-publicness test and falls through when it fails; the flattened
conjunction below is that same control flow. -/
def determine_severity (e : CodeEntity) : Severity :=
  if (e.type = toPyStr "class" ∨ e.type = toPyStr "function") ∧ e.is_public = true ∧
      startsWithUnderscore e.name = false then
    Severity.critical
  else if e.type = toPyStr "method" ∧ e.is_public = true ∧ e.parameters ≠ [] then
    Severity.high
  else if e.is_public = true then
    Severity.medium
  else
    Severity.low

/-- The severity precedence table as the spec and claim C2 word it for public
entities (CRITICAL for classes and functions whose name does not start with
an underscore, else HIGH for methods with at least one parameter, else
MEDIUM); written from the spec's words, to be compared with
`determine_severity` from the source. -/
def spec_severity_table (e : CodeEntity) : Severity :=
  if (e.type = toPyStr "class" ∨ e.type = toPyStr "function") ∧
      startsWithUnderscore e.name = false then
    Severity.critical
  else if e.type = toPyStr "method" ∧ e.parameters ≠ [] then
    Severity.high
  else
    Severity.medium

/-- The gap built by `GapDetector._add_missing_docstring_gap`. -/
def add_missing_docstring_gap (e : CodeEntity) : DocumentationGap :=
  { id := generate_gap_id
    gap_type := DocumentationType.missing_docstring
    severity := determine_severity e
    location := e.file_path ++ toPyStr ":" ++ intToPyStr e.line_number
    entity := some e
    description :=
      pyCapitalize e.type ++ toPyStr " \x27" ++ e.name ++ toPyStr "\x27 has no docstring"
    current_documentation := none
    suggested_improvement := none
    context :=
      [(toPyStr "entity_type", some e.type), (toPyStr "entity_name", some e.name),
       (toPyStr "signature", e.signature)] }

/-- The gap built by `GapDetector._add_incomplete_gap`. -/
def add_incomplete_gap (e : CodeEntity) (gap_type : DocumentationType)
    (description : PyStr) : DocumentationGap :=
  { id := generate_gap_id
    gap_type := gap_type
    severity := determine_severity e
    location := e.file_path ++ toPyStr ":" ++ intToPyStr e.line_number
    entity := some e
    description := pyCapitalize e.type ++ toPyStr " \x27" ++ e.name ++ toPyStr "\x27: " ++ description
    current_documentation := e.docstring
    suggested_improvement := none
    context :=
      [(toPyStr "entity_type", some e.type), (toPyStr "entity_name", some e.name),
       (toPyStr "signature", e.signature)] }

/-- The per-parameter issue strings of the `elif` branch of the parameter
check (`param['name'] not in entity.docstring and param['name'] != 'self'`). -/
def undocumented_param_issues (e : CodeEntity) (ds : PyStr) : List PyStr :=
  e.parameters.filterMap (fun p =>
    if containsSub p.name ds = false ∧ p.name ≠ toPyStr "self" then
      some (toPyStr "parameter \x27" ++ p.name ++ toPyStr "\x27 not documented")
    else none)

/-- `GapDetector._analyze_docstring_completeness`, returning the pair of the
local `issues` list (which the source builds and then discards) and the gaps
the method appends to `self.gaps`, in the order the source produces them. -/
def analyze_docstring_completeness (e : CodeEntity) : List PyStr × List DocumentationGap :=
  if pyTruthy e.docstring = false then ([], [])
  else
    let ds := e.docstring.getD []
    let docstring_lower := pyLower ds
    let param_part :=
      if e.parameters ≠ [] then
        if hasAnyKeyword param_section_keywords docstring_lower = false then
          ([toPyStr "missing parameter documentation"],
           [add_incomplete_gap e DocumentationType.missing_parameters
              (toPyStr "Parameters are not documented")])
        else
          (undocumented_param_issues e ds, [])
      else ([], [])
    let return_part :=
      if pyTruthy e.return_type = true ∧ e.return_type.getD [] ≠ toPyStr "None" then
        if hasAnyKeyword return_section_keywords docstring_lower = false then
          ([toPyStr "missing return documentation"],
           [add_incomplete_gap e DocumentationType.missing_returns
              (toPyStr "Return value is not documented")])
        else ([], [])
      else ([], [])
    let exception_part :=
      if pyTruthy e.signature = true ∧
          containsSub (toPyStr "raise") (pyLower (e.signature.getD [])) = true then
        if hasAnyKeyword exception_section_keywords docstring_lower = false then
          ([toPyStr "missing exception documentation"],
           [add_incomplete_gap e DocumentationType.missing_exceptions
              (toPyStr "Exceptions are not documented")])
        else ([], [])
      else ([], [])
    let example_part :=
      if (e.type = toPyStr "function" ∨ e.type = toPyStr "method") ∧ e.is_public = true then
        if hasAnyKeyword example_section_keywords docstring_lower = false ∧
            0 < e.parameters.length then
          ([toPyStr "missing usage examples"], ([] : List DocumentationGap))
        else ([], [])
      else ([], [])
    let brief_part :=
      if (pyStrip ds).length < 20 then
        ([toPyStr "description too brief"],
         [add_incomplete_gap e DocumentationType.unclear_description
            (toPyStr "Description is too brief to be helpful")])
      else ([], [])
    (param_part.1 ++ return_part.1 ++ exception_part.1 ++ example_part.1 ++ brief_part.1,
     param_part.2 ++ return_part.2 ++ exception_part.2 ++ brief_part.2)

/-- The loop body of `GapDetector.analyze_code_entities` for one entity: skip
non-public entities, emit a missing-docstring gap for falsy docstrings, and
otherwise run the completeness checks (whose issue list the source discards). -/
def analyze_entity (e : CodeEntity) : List DocumentationGap :=
  if e.is_public = false then []
  else if pyTruthy e.docstring = false then [add_missing_docstring_gap e]
  else (analyze_docstring_completeness e).2

/-- `GapDetector.analyze_code_entities`: `self.gaps` starts empty and each
entity's gaps are appended in input order. -/
def analyze_code_entities (entities : List CodeEntity) : List DocumentationGap :=
  entities.foldl (fun gaps e => gaps ++ analyze_entity e) []

/-! ## SHA-256 (`hashlib.sha256(...).hexdigest()`)

A byte-level implementation over `Nat` with explicit reduction mod `2 ^ 32`,
matching FIPS 180-4; the sources hash UTF-8 encoded key strings and raw file
bytes with it. -/

/-- Reduce a word to 32 bits. -/
def mod32 (x : Nat) : Nat := x % 4294967296

/-- Right-rotation of a 32-bit word. -/
def rotr32 (n x : Nat) : Nat := mod32 ((x >>> n) ||| (x <<< (32 - n)))

/-- SHA-256 big sigma 0. -/
def bigSigma0 (x : Nat) : Nat := rotr32 2 x ^^^ rotr32 13 x ^^^ rotr32 22 x

/-- SHA-256 big sigma 1. -/
def bigSigma1 (x : Nat) : Nat := rotr32 6 x ^^^ rotr32 11 x ^^^ rotr32 25 x

/-- SHA-256 small sigma 0. -/
def smallSigma0 (x : Nat) : Nat := rotr32 7 x ^^^ rotr32 18 x ^^^ (x >>> 3)

/-- SHA-256 small sigma 1. -/
def smallSigma1 (x : Nat) : Nat := rotr32 17 x ^^^ rotr32 19 x ^^^ (x >>> 10)

/-- SHA-256 choice function (complement taken within 32 bits). -/
def shaCh (x y z : Nat) : Nat := (x &&& y) ^^^ ((x ^^^ 4294967295) &&& z)

/-- SHA-256 majority function. -/
def shaMaj (x y z : Nat) : Nat := (x &&& y) ^^^ (x &&& z) ^^^ (y &&& z)

/-- The 64 SHA-256 round constants. -/
def shaK : List Nat :=
  [1116352408, 1899447441, 3049323471, 3921009573, 961987163,
   1508970993, 2453635748, 2870763221, 3624381080, 310598401,
   607225278, 1426881987, 1925078388, 2162078206, 2614888103,
   3248222580, 3835390401, 4022224774, 264347078, 604807628,
   770255983, 1249150122, 1555081692, 1996064986, 2554220882,
   2821834349, 2952996808, 3210313671, 3336571891, 3584528711,
   113926993, 338241895, 666307205, 773529912, 1294757372,
   1396182291, 1695183700, 1986661051, 2177026350, 2456956037,
   2730485921, 2820302411, 3259730800, 3345764771, 3516065817,
   3600352804, 4094571909, 275423344, 430227734, 506948616,
   659060556, 883997877, 958139571, 1322822218, 1537002063,
   1747873779, 1955562222, 2024104815, 2227730452, 2361852424,
   2428436474, 2756734187, 3204031479, 3329325298]

/-- The initial SHA-256 hash state. -/
def shaH0 : List Nat :=
  [1779033703, 3144134277, 1013904242, 2773480762,
   1359893119, 2600822924, 528734635, 1541459225]

/-- Big-endian byte rendering of `n` on `k` bytes. -/
def toBytesBE (k n : Nat) : List Nat :=
  (List.range k).map (fun i => (n >>> (8 * (k - 1 - i))) &&& 255)

/-- SHA-256 padding: append `0x80`, zeros up to 56 mod 64, then the bit
length on 8 big-endian bytes. -/
def shaPad (msg : List Nat) : List Nat :=
  let len := msg.length
  let zeros := (119 - len % 64) % 64
  msg ++ [128] ++ List.replicate zeros 0 ++ toBytesBE 8 (8 * len)

/-- Fuelled worker splitting a byte list into 64-byte chunks; the fuel only
makes the recursion structural and `chunks64` always supplies enough of it. -/
def chunks64F : Nat → List Nat → List (List Nat)
  | _, [] => []
  | 0, _ :: _ => []
  | fuel + 1, l => l.take 64 :: chunks64F fuel (l.drop 64)

/-- Split a byte list into 64-byte chunks. -/
def chunks64 (l : List Nat) : List (List Nat) := chunks64F l.length l

/-- The 16 initial 32-bit message words of one 64-byte chunk (big endian). -/
def chunkWords (chunk : List Nat) : List Nat :=
  (List.range 16).map (fun i =>
    chunk.getD (4 * i) 0 * 16777216 + chunk.getD (4 * i + 1) 0 * 65536 +
    chunk.getD (4 * i + 2) 0 * 256 + chunk.getD (4 * i + 3) 0)

/-- Extend 16 message words to the 64-entry SHA-256 message schedule. -/
def shaSchedule (ws : List Nat) : List Nat :=
  (List.range 48).foldl (fun w i =>
    w ++ [mod32 (smallSigma1 (w.getD (i + 14) 0) + w.getD (i + 9) 0 +
                 smallSigma0 (w.getD (i + 1) 0) + w.getD i 0)]) ws

/-- One round of the SHA-256 compression function on the 8-word state. -/
def shaRound (st : List Nat) (kw : Nat × Nat) : List Nat :=
  match st with
  | [a, b, c, d, e, f, g, h] =>
    let t1 := mod32 (h + bigSigma1 e + shaCh e f g + kw.1 + kw.2)
    let t2 := mod32 (bigSigma0 a + shaMaj a b c)
    [mod32 (t1 + t2), a, b, c, mod32 (d + t1), e, f, g]
  | other => other

/-- Process one 64-byte chunk into the running 8-word hash state. -/
def shaCompress (h : List Nat) (chunk : List Nat) : List Nat :=
  let w := shaSchedule (chunkWords chunk)
  let st := (shaK.zip w).foldl shaRound h
  (h.zip st).map (fun p => mod32 (p.1 + p.2))

/-- SHA-256 digest of a byte list, as 32 bytes. -/
def sha256bytes (msg : List Nat) : List Nat :=
  let final := (chunks64 (shaPad msg)).foldl shaCompress shaH0
  (final.map (toBytesBE 4)).flatten

/-- One lowercase hexadecimal digit. -/
def hexDigit (n : Nat) : Char :=
  if n < 10 then Char.ofNat (48 + n) else Char.ofNat (87 + n)

/-- `hashlib.sha256(msg).hexdigest()`: the digest as 64 lowercase hex
characters. -/
def sha256hex (msg : List Nat) : PyStr :=
  ((sha256bytes msg).map (fun b => [hexDigit (b >>> 4), hexDigit (b &&& 15)])).flatten

/-- Python `s.encode()`: UTF-8 bytes of one character. -/
def utf8EncodeChar (c : Char) : List Nat :=
  let n := c.toNat
  if n < 128 then [n]
  else if n < 2048 then [192 ||| (n >>> 6), 128 ||| (n &&& 63)]
  else if n < 65536 then
    [224 ||| (n >>> 12), 128 ||| ((n >>> 6) &&& 63), 128 ||| (n &&& 63)]
  else
    [240 ||| (n >>> 18), 128 ||| ((n >>> 12) &&& 63),
     128 ||| ((n >>> 6) &&& 63), 128 ||| (n &&& 63)]

/-- Python `s.encode()`: UTF-8 bytes of a string. -/
def utf8Encode (s : PyStr) : List Nat := (s.map utf8EncodeChar).flatten

/-! ## Cache store (`src/doc_improver/utils/cache.py`)

The two SQLite tables are modelled as association lists keyed by their
PRIMARY KEY column.  `created_at` (a column default, never read back) and the
schema-creating `CacheManager.initialize` are not modelled.  `datetime.now()`
is an explicit `now : Int` parameter (seconds); `timedelta(hours=h)` is
`h * 3600`; comparing parsed ISO timestamps is order-isomorphic to comparing
the underlying instants. -/

/-- One row of the `api_cache` table (minus `created_at`, which nothing
reads). -/
structure ApiRow where
  value : PyStr
  expires_at : Option Int
  metadata : Option PyStr
deriving DecidableEq

/-- The `api_cache` table, keyed by the `key` column. -/
abbrev ApiCache := List (PyStr × ApiRow)

/-- Point `SELECT ... WHERE key = ?` on an association list. -/
def alistGet {β : Type} (k : PyStr) : List (PyStr × β) → Option β
  | [] => none
  | (k2, row) :: rest => if k2 = k then some row else alistGet k rest

/-- Point `DELETE ... WHERE key = ?` on an association list. -/
def alistDelete {β : Type} (k : PyStr) : List (PyStr × β) → List (PyStr × β)
  | [] => []
  | (k2, row) :: rest =>
    if k2 = k then alistDelete k rest else (k2, row) :: alistDelete k rest

/-- `INSERT OR REPLACE` on an association list (the key is a PRIMARY KEY, so
the replaced row is unique; row order is unobservable through point reads). -/
def alistUpsert {β : Type} (k : PyStr) (row : β) (st : List (PyStr × β)) :
    List (PyStr × β) :=
  (k, row) :: alistDelete k st

/-- `CacheManager.get_api_response`: the returned value (`None` on a miss)
and the table state after the read (a found-but-expired row is deleted). -/
def get_api_response (now : Int) (st : ApiCache) (cache_key : PyStr) :
    Option PyStr × ApiCache :=
  match alistGet cache_key st with
  | none => (none, st)
  | some row =>
    match row.expires_at with
    | none => (some row.value, st)
    | some expires => if expires < now then (none, alistDelete cache_key st) else (some row.value, st)

/-- `CacheManager.set_api_response`: upsert with
`expires_at = now + timedelta(hours=ttl_hours)`. -/
def set_api_response (now : Int) (st : ApiCache) (cache_key value : PyStr)
    (ttl_hours : Int) (metadata : Option PyStr) : ApiCache :=
  alistUpsert cache_key
    { value := value, expires_at := some (now + ttl_hours * 3600), metadata := metadata } st

/-- One row of the `analysis_cache` table (minus `analyzed_at`, which nothing
reads).  The JSON (de)serialization of the entity list is treated as the
identity pairing: `entities` holds the serialized payload. -/
structure AnalysisRow where
  file_hash : PyStr
  entities : PyStr
deriving DecidableEq

/-- The `analysis_cache` table, keyed by the `file_path` column. -/
abbrev AnalysisCache := List (PyStr × AnalysisRow)

/-- `CacheManager.get_file_analysis`.  The file system read is passed in as
`current_bytes` (`none` when the path does not exist or reading raises, both
of which the source turns into an early `None`).  Returns the cached payload
(`None` on a miss) and the table state after the read (a stale row is
deleted). -/
def get_file_analysis (current_bytes : Option (List Nat)) (st : AnalysisCache)
    (file_path : PyStr) : Option PyStr × AnalysisCache :=
  match current_bytes with
  | none => (none, st)
  | some bytes =>
    let current_hash := sha256hex bytes
    match alistGet file_path st with
    | none => (none, st)
    | some row =>
      if row.file_hash ≠ current_hash then (none, alistDelete file_path st)
      else (some row.entities, st)

/-- `CacheManager.set_file_analysis`: hash the file's bytes (an unreadable
file is logged and leaves the table unchanged) and upsert the serialized
entities under the path. -/
def set_file_analysis (current_bytes : Option (List Nat)) (st : AnalysisCache)
    (file_path : PyStr) (entities_json : PyStr) : AnalysisCache :=
  match current_bytes with
  | none => st
  | some bytes =>
    alistUpsert file_path { file_hash := sha256hex bytes, entities := entities_json } st

/-! ## Generation client cache key (`ClaudeClientV2._generate_cache_key`) -/

/-- Python `str(f)` for the `temperature` float.  CPython's float `repr` is
injective (it round-trips); the embedding renders the modelled rational as
`numerator/denominator`, which is likewise injective, and no claim depends on
the concrete digits. -/
def pyFloatRepr (q : Rat) : PyStr := intToPyStr q.num ++ toPyStr "/" ++ natToPyStr q.den

/-- Python `str(...)` of one parameter dict, as the analyzers build it
(insertion order `name` then `type`, `type` present only when hinted). -/
def pyReprParam (p : Param) : PyStr :=
  toPyStr "\x7b\x27name\x27: \x27" ++ p.name ++ toPyStr "\x27" ++
  (match p.type with
   | some t => toPyStr ", \x27type\x27: \x27" ++ t ++ toPyStr "\x27"
   | none => []) ++ toPyStr "\x7d"

/-- Python `str(entity.parameters)` (a list of dicts). -/
def pyReprParams (ps : List Param) : PyStr :=
  toPyStr "[" ++ List.intercalate (toPyStr ", ") (ps.map pyReprParam) ++ toPyStr "]"

/-- `ClaudeClientV2._generate_cache_key`: SHA-256 hex digest of the
`"|"`-joined key parts. -/
def generate_cache_key (config : GenerationConfig) (gap : DocumentationGap) : PyStr :=
  let key_parts : List PyStr :=
    [gap.gap_type.value, gap.location, config.model, pyFloatRepr config.temperature,
     config.style]
  let key_parts := key_parts ++
    (match gap.entity with
     | some e => [e.name, e.signature.getD [], pyReprParams e.parameters, e.return_type.getD []]
     | none => [])
  let key_string := List.intercalate (toPyStr "|") key_parts
  sha256hex (utf8Encode key_string)

/-! ## Batch orchestrator (`ClaudeClientV2.batch_generate_async`)

One generation attempt is an oracle
`gen : DocumentationGap → Except PyStr (PyStr × PyStr)`: `Except.error`
stands for `generate_documentation_async` raising.  The progress callback is
a pure side channel (the spec requires it not to affect ordering or error
handling) and is not modelled.  `asyncio.gather` may hand results back in any
completion order, so the theorems quantify over every permutation of the
spawned tasks' results; `process_gap` catches every exception, so the
`isinstance(r, Exception)` filter of the source never removes anything. -/

/-- The inner `process_gap` coroutine: an `(index, result)` pair, where an
individual failure is absorbed into the placeholder
`("", f"Error: {str(e)}")`. -/
def process_gap (gen : DocumentationGap → Except PyStr (PyStr × PyStr))
    (gap : DocumentationGap) (index : Nat) : Nat × (PyStr × PyStr) :=
  (index,
   match gen gap with
   | Except.ok r => r
   | Except.error e => ([], toPyStr "Error: " ++ e))

/-- The spawned task list
`[process_gap(gap, i) for i, gap in enumerate(gaps)]`, with `i` starting at
`start`. -/
def build_tasks (gen : DocumentationGap → Except PyStr (PyStr × PyStr))
    (start : Nat) : List DocumentationGap → List (Nat × (PyStr × PyStr))
  | [] => []
  | g :: gs => process_gap gen g start :: build_tasks gen (start + 1) gs

/-- The comparison `sorted(..., key=lambda x: x[0])` sorts by. -/
def leFst {β : Type} (a b : Nat × β) : Prop := a.1 ≤ b.1

instance {β : Type} : DecidableRel (@leFst β) := fun a b => Nat.decLe a.1 b.1

instance {β : Type} : IsTotal (Nat × β) leFst := ⟨fun a b => Nat.le_total a.1 b.1⟩

instance {β : Type} : IsTrans (Nat × β) leFst := ⟨fun _ _ _ => Nat.le_trans⟩

/-- The tail of `batch_generate_async`: sort the gathered `(index, result)`
pairs by original index and project the results.  Python's `sorted` is any
stable comparison sort; insertion sort is one, and the indices are pairwise
distinct anyway. -/
def collect_batch_results (completed : List (Nat × (PyStr × PyStr))) :
    List (PyStr × PyStr) :=
  (List.insertionSort leFst completed).map Prod.snd

/-! ## Documentation generator (`src/doc_improver/generator/doc_generator.py`) -/

/-- The keyword lists `_calculate_confidence` scans for (note they differ
from the gap detector's lists). -/
def confidence_param_keywords : List PyStr :=
  [toPyStr "args:", toPyStr "parameters:", toPyStr ":param"]

/-- The return-section keywords `_calculate_confidence` scans for. -/
def confidence_return_keywords : List PyStr :=
  [toPyStr "returns:", toPyStr "return:", toPyStr ":return"]

/-- The example markers `_calculate_confidence` scans for. -/
def confidence_example_keywords : List PyStr :=
  [toPyStr "example:", toPyStr ">>>", toPyStr "usage:"]

/-- Python `min(a, b)` on two floats (returns the first argument on ties),
modelled over the exact rationals; written directly so that the kernel can
evaluate it. -/
def pyMinQ (a b : Rat) : Rat := if b < a then b else a

/-- Python `gap.entity and gap.entity.parameters` as a boolean. -/
def gapEntityHasParams (gap : DocumentationGap) : Bool :=
  match gap.entity with
  | some e => !e.parameters.isEmpty
  | none => false

/-- Python `gap.entity and gap.entity.return_type` as a boolean. -/
def gapEntityHasReturn (gap : DocumentationGap) : Bool :=
  match gap.entity with
  | some e => pyTruthy e.return_type
  | none => false

/-- `DocumentationGenerator._calculate_confidence`: base 0.5 plus additive
bonuses, capped at 1.0.  Float arithmetic is modelled exactly over `Rat`; the
bonuses are non-negative in either arithmetic. -/
def calculate_confidence (config : GenerationConfig) (documentation : PyStr)
    (gap : DocumentationGap) : Rat :=
  let score : Rat := 1 / 2
  let score := if 50 < documentation.length then score + 1 / 10 else score
  let score := if 200 < documentation.length then score + 1 / 10 else score
  let doc_lower := pyLower documentation
  let score :=
    if gapEntityHasParams gap = true ∧
        hasAnyKeyword confidence_param_keywords doc_lower = true then
      score + 3 / 20
    else score
  let score :=
    if gapEntityHasReturn gap = true ∧
        hasAnyKeyword confidence_return_keywords doc_lower = true then
      score + 3 / 20
    else score
  let score :=
    if config.include_examples = true ∧
        hasAnyKeyword confidence_example_keywords doc_lower = true then
      score + 1 / 10
    else score
  pyMinQ score 1

/-- `models.DocumentationImprovement` (confidence as an exact rational). -/
structure DocumentationImprovement where
  gap_id : PyStr
  gap : DocumentationGap
  improved_documentation : PyStr
  diff : Option PyStr := none
  confidence_score : Rat
  reasoning : PyStr
deriving DecidableEq

/-- `DocumentationGenerator.generate_improvements`.  The synchronous client
call is the oracle `client` (`Except.error` stands for it raising, which the
source logs and skips); `difflib.unified_diff` is standard-library code
outside this repository, abstracted as the oracle `mkDiff`. -/
def generate_improvements (client : DocumentationGap → Except PyStr (PyStr × PyStr))
    (mkDiff : PyStr → PyStr → PyStr) (config : GenerationConfig)
    (gaps : List DocumentationGap) : List DocumentationImprovement :=
  gaps.foldl (fun improvements gap =>
    match client gap with
    | Except.error _ => improvements
    | Except.ok (improved_doc, reasoning) =>
      let confidence := calculate_confidence config improved_doc gap
      let diff :=
        if pyTruthy gap.current_documentation = true then
          some (mkDiff (gap.current_documentation.getD []) improved_doc)
        else none
      improvements ++
        [{ gap_id := gap.id, gap := gap, improved_documentation := improved_doc,
           diff := diff, confidence_score := confidence, reasoning := reasoning }]) []

/-- The statistics dict built by `DocumentationGenerator.apply_improvements`. -/
structure ApplyStats where
  total : Nat
  applied : Nat
  skipped : Nat
  failed : Nat
deriving DecidableEq

/-- `DocumentationGenerator.apply_improvements`.  `applyOk` is the outcome of
`_apply_improvement` (file-system writes, outside the modelled state:
`false` stands for it raising); with `dry_run` the call is skipped and the
item counts as applied. -/
def apply_improvements (applyOk : DocumentationImprovement → Bool) (dry_run : Bool)
    (improvements : List DocumentationImprovement) : ApplyStats :=
  improvements.foldl (fun stats improvement =>
    if improvement.confidence_score < 1 / 2 then
      { stats with skipped := stats.skipped + 1 }
    else if dry_run = true ∨ applyOk improvement = true then
      { stats with applied := stats.applied + 1 }
    else
      { stats with failed := stats.failed + 1 })
    { total := improvements.length, applied := 0, skipped := 0, failed := 0 }

/-! ## Concrete witness inputs -/

/-- Concrete public function entity with no docstring, for the C2 witness. -/
def witEntityNoDoc : CodeEntity :=
  { name := toPyStr "run"
    type := toPyStr "function"
    file_path := toPyStr "pkg/mod.py"
    line_number := 12
    docstring := none }

/-- Concrete entity of the spec's section-8 example for the C8 witness:
parameters `[x, y]`, return type `int`, docstring `Does something.`. -/
def witEntityShortDoc : CodeEntity :=
  { name := toPyStr "calc"
    type := toPyStr "function"
    file_path := toPyStr "pkg/mod.py"
    line_number := 40
    docstring := some (toPyStr "Does something.")
    parameters := [{ name := toPyStr "x" }, { name := toPyStr "y" }]
    return_type := some (toPyStr "int") }

/-- A concrete gap with an entity, for the C4 witness. -/
def witGapA : DocumentationGap :=
  { id := toPyStr "7f1d"
    gap_type := DocumentationType.missing_docstring
    severity := Severity.critical
    location := toPyStr "pkg/mod.py:12"
    entity := some { name := toPyStr "run", type := toPyStr "function",
                     file_path := toPyStr "pkg/mod.py", line_number := 12,
                     signature := some (toPyStr "def run(x)"),
                     parameters := [{ name := toPyStr "x" }],
                     return_type := some (toPyStr "int") }
    description := toPyStr "Function \x27run\x27 has no docstring"
    current_documentation := none
    context := [(toPyStr "entity_name", some (toPyStr "run"))] }

/-- A second gap built separately: same type, location and entity key fields
as `witGapA`, different id, severity, description, current documentation and
context. -/
def witGapB : DocumentationGap :=
  { id := toPyStr "99ac"
    gap_type := DocumentationType.missing_docstring
    severity := Severity.medium
    location := toPyStr "pkg/mod.py:12"
    entity := some { name := toPyStr "run", type := toPyStr "method",
                     file_path := toPyStr "other.py", line_number := 99,
                     signature := some (toPyStr "def run(x)"),
                     docstring := some (toPyStr "old text"),
                     parameters := [{ name := toPyStr "x" }],
                     return_type := some (toPyStr "int") }
    description := toPyStr "another description"
    current_documentation := some (toPyStr "old text")
    context := [] }

/-- A constant generation client for the C10 witness. -/
def witClient : DocumentationGap → Except PyStr (PyStr × PyStr) :=
  fun _ => Except.ok (toPyStr "Adds two numbers.", toPyStr "explained")

/-- A concrete gap for the C10 witness. -/
def witGapForGen : DocumentationGap :=
  { id := toPyStr "g1"
    gap_type := DocumentationType.missing_docstring
    severity := Severity.critical
    location := toPyStr "m.py:1"
    description := toPyStr "Function \x27add\x27 has no docstring" }

/-- The improvement `generate_improvements` builds for `witGapForGen` under
`witClient` (the short response earns no bonus, so the confidence is the base
score). -/
def witImprovement : DocumentationImprovement :=
  { gap_id := toPyStr "g1"
    gap := witGapForGen
    improved_documentation := toPyStr "Adds two numbers."
    diff := none
    confidence_score := calculate_confidence {} (toPyStr "Adds two numbers.") witGapForGen
    reasoning := toPyStr "explained" }

/-- The generation oracle used by the C5 witness: it fails on the gap with
id `g2` and succeeds on the others. -/
def witGen : DocumentationGap → Except PyStr (PyStr × PyStr) :=
  fun g =>
    if g.id = toPyStr "g2" then Except.error (toPyStr "boom")
    else Except.ok (g.id, toPyStr "ok")

/-- A minimal concrete gap with the given id, for the batch witnesses. -/
def mkWitGap (idstr : String) : DocumentationGap :=
  { id := toPyStr idstr
    gap_type := DocumentationType.missing_docstring
    severity := Severity.critical
    location := toPyStr idstr
    description := toPyStr "d" }

/-- The three-gap batch of the C5 witness. -/
def witGaps : List DocumentationGap := [mkWitGap "g0", mkWitGap "g1", mkWitGap "g2"]

/-- A reversed completion order for the C5 witness (the last task finishes
first). -/
def witCompleted : List (Nat × (PyStr × PyStr)) := (build_tasks witGen 0 witGaps).reverse

/-- The generation oracle of the C6 witness (fails exactly on id `f1`). -/
def witGenB : DocumentationGap → Except PyStr (PyStr × PyStr) :=
  fun g =>
    if g.id = toPyStr "f1" then Except.error (toPyStr "timeout")
    else Except.ok (g.id, toPyStr "ok")

/-- The three-gap batch of the C6 witness, whose middle gap fails. -/
def witGapsB : List DocumentationGap := [mkWitGap "f0", mkWitGap "f1", mkWitGap "f2"]

/-- A reversed completion order for the C6 witness. -/
def witCompletedB : List (Nat × (PyStr × PyStr)) := (build_tasks witGenB 0 witGapsB).reverse

/-- Concrete public function entity whose docstring lacks example markers,
for the C9 witness. -/
def witEntityNoExamples : CodeEntity :=
  { name := toPyStr "scan"
    type := toPyStr "function"
    file_path := toPyStr "pkg/scan.py"
    line_number := 7
    docstring := some (toPyStr "Scans the given tree for problems and reports them.")
    parameters := [{ name := toPyStr "tree" }] }

/-! ## Lemmas about the Python string model -/

/-- Sanity anchor for the SHA-256 embedding: the FIPS 180-4 test vector for
the three-byte message `abc`. -/
theorem sha256hex_test_vector :
    sha256hex (utf8Encode (toPyStr "abc")) =
      toPyStr "ba7816bf8f01cfea414140de5dae2223b00361a396177a9cb410ff61f20015ad" := by
  decide

/-- `pySplitF` never returns the empty list. -/
theorem pySplitF_ne_nil (sep : PyStr) (fuel : Nat) (s : PyStr) :
    pySplitF sep fuel s ≠ [] := by
  match fuel, s with
  | _, [] => simp [pySplitF]
  | 0, c :: rest => simp [pySplitF]
  | fuel + 1, c :: rest =>
    simp only [pySplitF]
    split
    · simp
    · cases h : pySplitF sep fuel rest <;> simp [h]

/-- `str.split` never returns the empty list. -/
theorem pySplit_ne_nil (sep s : PyStr) : pySplit sep s ≠ [] :=
  pySplitF_ne_nil sep s.length s

/-- With enough fuel, a non-empty separator splits a string into at least two
segments exactly when the string contains the separator. -/
theorem pySplitF_two_le_iff (sep : PyStr) (hsep : sep ≠ []) :
    ∀ (fuel : Nat) (s : PyStr), s.length ≤ fuel →
      (2 ≤ (pySplitF sep fuel s).length ↔ containsSub sep s = true) := by
  intro fuel
  induction fuel with
  | zero =>
    intro s hs
    cases s with
    | nil =>
      simp only [pySplitF, containsSub, List.length_singleton]
      constructor
      · omega
      · intro h
        rw [List.isEmpty_iff] at h
        exact absurd h hsep
    | cons c rest => simp at hs
  | succ fuel ih =>
    intro s hs
    cases s with
    | nil =>
      simp only [pySplitF, containsSub, List.length_singleton]
      constructor
      · omega
      · intro h
        rw [List.isEmpty_iff] at h
        exact absurd h hsep
    | cons c rest =>
      simp only [pySplitF]
      by_cases hpre : sep.isPrefixOf (c :: rest) = true
      · rw [if_pos ⟨hsep, hpre⟩]
        simp only [List.length_cons, containsSub, hpre, Bool.true_or, iff_true]
        have hne := pySplitF_ne_nil sep fuel ((c :: rest).drop sep.length)
        have hpos := List.length_pos.mpr hne
        omega
      · rw [if_neg (fun h => hpre h.2)]
        have hrest : rest.length ≤ fuel := by
          simp only [List.length_cons] at hs
          omega
        obtain ⟨h1, t1, heq⟩ : ∃ h1 t1, pySplitF sep fuel rest = h1 :: t1 := by
          cases hq : pySplitF sep fuel rest with
          | nil => exact absurd hq (pySplitF_ne_nil sep fuel rest)
          | cons x y => exact ⟨x, y, rfl⟩
        rw [heq]
        have hih := ih rest hrest
        rw [heq] at hih
        simp only [List.length_cons] at hih ⊢
        rw [containsSub, Bool.eq_false_iff.mpr hpre, Bool.false_or]
        exact hih

/-- A non-empty separator splits a string into at least two segments exactly
when the string contains the separator. -/
theorem pySplit_two_le_iff (sep : PyStr) (hsep : sep ≠ []) (s : PyStr) :
    2 ≤ (pySplit sep s).length ↔ containsSub sep s = true :=
  pySplitF_two_le_iff sep hsep s.length s le_rfl

/-! ## C1: `_parse_response` -/

/-- C1 (counterexample): the response parser is not total — on an input where
both markers occur but `DOCUMENTATION:` only occurs after the first
`REASONING:`, `parts[0].split(doc_marker)[1]` indexes a one-element list and
the call raises `IndexError` instead of returning a pair. -/
theorem parse_response_raises_on_inverted_markers :
    parse_response (toPyStr "REASONING: r DOCUMENTATION: d") =
      Except.error (toPyStr "IndexError") := by decide

/-- C1 (amended): `_parse_response` returns the whole stripped content with
the generic reasoning string (without raising) whenever either marker is
absent; when both markers occur and `DOCUMENTATION:` occurs in the segment
before the first `REASONING:`, it returns the pair of the segment between
the first two `DOCUMENTATION:` occurrences of that prefix and the segment
between the first two `REASONING:` occurrences of the content, each stripped
of whitespace, then backticks, then whitespace; but when both markers occur
and `DOCUMENTATION:` does not occur before the first `REASONING:`, it raises
`IndexError`. -/
theorem parse_response_total_behaviour (content : PyStr) :
    ((containsSub doc_marker content && containsSub reasoning_marker content) = false →
      parse_response content = Except.ok (pyStrip content, generic_reasoning))
    ∧ (containsSub doc_marker content = true → containsSub reasoning_marker content = true →
        containsSub doc_marker ((pySplit reasoning_marker content).headD []) = true →
        parse_response content =
          Except.ok
            (pyStrip (stripBackticks (pyStrip
              ((pySplit doc_marker ((pySplit reasoning_marker content).headD [])).getD 1 []))),
             pyStrip (stripBackticks (pyStrip ((pySplit reasoning_marker content).getD 1 [])))))
    ∧ (containsSub doc_marker content = true → containsSub reasoning_marker content = true →
        containsSub doc_marker ((pySplit reasoning_marker content).headD []) = false →
        parse_response content = Except.error (toPyStr "IndexError")) := by
  refine ⟨?_, ?_, ?_⟩
  · intro h
    rw [parse_response, if_neg (by simp [h])]
  · intro hd hr hdoc
    rw [parse_response, if_pos (by simp [hd, hr])]
    have h2 : 2 ≤ (pySplit reasoning_marker content).length :=
      (pySplit_two_le_iff reasoning_marker (by decide) content).mpr hr
    obtain ⟨p0, p1, prest, hps⟩ :
        ∃ p0 p1 prest, pySplit reasoning_marker content = p0 :: p1 :: prest := by
      match hq : pySplit reasoning_marker content with
      | [] => rw [hq] at h2; simp at h2
      | [x] => rw [hq] at h2; simp at h2
      | x :: y :: r => exact ⟨x, y, r, rfl⟩
    rw [hps] at hdoc ⊢
    simp only [List.headD_cons] at hdoc
    have h2d : 2 ≤ (pySplit doc_marker p0).length :=
      (pySplit_two_le_iff doc_marker (by decide) p0).mpr hdoc
    obtain ⟨d0, d1, drest, hds⟩ :
        ∃ d0 d1 drest, pySplit doc_marker p0 = d0 :: d1 :: drest := by
      match hq : pySplit doc_marker p0 with
      | [] => rw [hq] at h2d; simp at h2d
      | [x] => rw [hq] at h2d; simp at h2d
      | x :: y :: r => exact ⟨x, y, r, rfl⟩
    simp only [List.getElem?_cons_zero, List.getElem?_cons_succ, hds, List.headD_cons,
      List.getD]
    rfl
  · intro hd hr hdoc
    rw [parse_response, if_pos (by simp [hd, hr])]
    have h2 : 2 ≤ (pySplit reasoning_marker content).length :=
      (pySplit_two_le_iff reasoning_marker (by decide) content).mpr hr
    obtain ⟨p0, p1, prest, hps⟩ :
        ∃ p0 p1 prest, pySplit reasoning_marker content = p0 :: p1 :: prest := by
      match hq : pySplit reasoning_marker content with
      | [] => rw [hq] at h2; simp at h2
      | [x] => rw [hq] at h2; simp at h2
      | x :: y :: r => exact ⟨x, y, r, rfl⟩
    rw [hps] at hdoc ⊢
    simp only [List.headD_cons] at hdoc
    obtain ⟨d0, hds⟩ : ∃ d0, pySplit doc_marker p0 = [d0] := by
      have hlt : ¬ 2 ≤ (pySplit doc_marker p0).length := by
        rw [pySplit_two_le_iff doc_marker (by decide) p0]
        simp [hdoc]
      have hne := pySplit_ne_nil doc_marker p0
      match hq : pySplit doc_marker p0 with
      | [] => exact absurd hq hne
      | [x] => exact ⟨x, rfl⟩
      | x :: y :: r => rw [hq] at hlt; simp at hlt
    simp only [List.getElem?_cons_zero, List.getElem?_cons_succ, hds]
    rfl

/-- C1 witness: the amended theorem applied at three concrete responses, one
per branch (marker-free fallback, well-formed two-section response, and the
inverted-marker input that raises). -/
theorem parse_response_total_behaviour_witness :
    parse_response (toPyStr "plain text answer") =
      Except.ok (pyStrip (toPyStr "plain text answer"), generic_reasoning)
    ∧ parse_response (toPyStr "DOCUMENTATION: d REASONING: r") =
        Except.ok
          (pyStrip (stripBackticks (pyStrip
            ((pySplit doc_marker
              ((pySplit reasoning_marker (toPyStr "DOCUMENTATION: d REASONING: r")).headD
                [])).getD 1 []))),
           pyStrip (stripBackticks (pyStrip
             ((pySplit reasoning_marker (toPyStr "DOCUMENTATION: d REASONING: r")).getD 1 []))))
    ∧ parse_response (toPyStr "REASONING: x DOCUMENTATION: y") =
        Except.error (toPyStr "IndexError") :=
  ⟨(parse_response_total_behaviour (toPyStr "plain text answer")).1 (by decide),
   (parse_response_total_behaviour (toPyStr "DOCUMENTATION: d REASONING: r")).2.1
     (by decide) (by decide) (by decide),
   (parse_response_total_behaviour (toPyStr "REASONING: x DOCUMENTATION: y")).2.2
     (by decide) (by decide) (by decide)⟩

/-! ## C2: gap detector publicness, missing-docstring and severity contract -/

/-- The entity loop of `analyze_code_entities` is a flat map of the per-entity
gap lists. -/
theorem analyze_code_entities_eq_flatMap (entities : List CodeEntity) :
    analyze_code_entities entities = entities.flatMap analyze_entity := by
  have haux : ∀ (l : List CodeEntity) (acc : List DocumentationGap),
      l.foldl (fun gaps e => gaps ++ analyze_entity e) acc = acc ++ l.flatMap analyze_entity := by
    intro l
    induction l with
    | nil => intro acc; simp
    | cons e rest ih => intro acc; simp [ih, List.append_assoc]
  simpa using haux entities []

/-- Every gap of the completeness checks is an `add_incomplete_gap` for the
analyzed entity. -/
theorem mem_completeness_gaps (e : CodeEntity) (g : DocumentationGap)
    (hg : g ∈ (analyze_docstring_completeness e).2) :
    ∃ t d, g = add_incomplete_gap e t d ∧
      t ∈ [DocumentationType.missing_parameters, DocumentationType.missing_returns,
           DocumentationType.missing_exceptions, DocumentationType.unclear_description] := by
  unfold analyze_docstring_completeness at hg
  by_cases hds : pyTruthy e.docstring = false
  · rw [if_pos hds] at hg
    simp at hg
  · rw [if_neg hds] at hg
    simp only [apply_ite Prod.snd, List.mem_append] at hg
    rcases hg with ((h | h) | h) | h <;>
      (split_ifs at h <;> simp only [List.mem_singleton, List.not_mem_nil] at h <;>
        exact ⟨_, _, h, by simp⟩)

/-- Every gap emitted for one entity references that entity, carries its
`_determine_severity` value, and only arises for public entities. -/
theorem mem_analyze_entity (e : CodeEntity) (g : DocumentationGap)
    (hg : g ∈ analyze_entity e) :
    g.entity = some e ∧ g.severity = determine_severity e ∧ e.is_public = true := by
  unfold analyze_entity at hg
  split_ifs at hg with h1 h2
  · simp at hg
  · simp only [List.mem_singleton] at hg
    subst hg
    exact ⟨rfl, rfl, by simpa using h1⟩
  · obtain ⟨t, d, rfl, -⟩ := mem_completeness_gaps e g hg
    exact ⟨rfl, rfl, by simpa using h1⟩

/-- On public entities, the source's `_determine_severity` agrees with the
spec's precedence table and never yields LOW. -/
theorem determine_severity_public (e : CodeEntity) (hpub : e.is_public = true) :
    determine_severity e = spec_severity_table e ∧ determine_severity e ≠ Severity.low := by
  unfold determine_severity spec_severity_table
  simp only [hpub, true_and, and_true]
  split_ifs <;> simp_all

/-- C2: `analyze_code_entities` emits gaps only for public entities; a public
entity with a falsy docstring (None or `""`) contributes exactly one gap, of
kind missing_docstring; and every emitted gap's severity is the spec's
precedence table applied to its (public) entity — in particular LOW is never
assigned. -/
theorem gap_detector_contract (entities : List CodeEntity) :
    (analyze_code_entities entities =
      analyze_code_entities (entities.filter (fun e => e.is_public)))
    ∧ (∀ e : CodeEntity, e.is_public = true → pyTruthy e.docstring = false →
        (analyze_entity e).map DocumentationGap.gap_type =
          [DocumentationType.missing_docstring])
    ∧ (∀ g ∈ analyze_code_entities entities,
        ∃ e, g.entity = some e ∧ e.is_public = true ∧
          g.severity = spec_severity_table e ∧ g.severity ≠ Severity.low) := by
  refine ⟨?_, ?_, ?_⟩
  · rw [analyze_code_entities_eq_flatMap, analyze_code_entities_eq_flatMap]
    induction entities with
    | nil => rfl
    | cons e rest ih =>
      by_cases hp : e.is_public = true
      · simp [hp, ih]
      · have hp' : e.is_public = false := by simpa using hp
        simp [hp', analyze_entity, ih]
  · intro e hp hds
    simp [analyze_entity, hp, hds, add_missing_docstring_gap]
  · intro g hg
    rw [analyze_code_entities_eq_flatMap] at hg
    obtain ⟨e, _, hge⟩ := List.mem_flatMap.mp hg
    obtain ⟨hent, hsev, hpub⟩ := mem_analyze_entity e g hge
    obtain ⟨htable, hlow⟩ := determine_severity_public e hpub
    exact ⟨e, hent, hpub, by rw [hsev, htable], by rw [hsev]; exact hlow⟩

/-- C2 witness: the contract applied to a concrete public, docstring-less
function entity. -/
theorem gap_detector_contract_witness :
    (analyze_entity witEntityNoDoc).map DocumentationGap.gap_type =
      [DocumentationType.missing_docstring] :=
  (gap_detector_contract [witEntityNoDoc]).2.1 witEntityNoDoc (by decide) (by decide)

/-! ## C8 and C9: completeness checks -/

/-- For a public entity with a truthy docstring, the emitted gaps are exactly
the completeness-check gaps. -/
theorem analyze_entity_of_docstring (e : CodeEntity) (hpub : e.is_public = true)
    (hds : pyTruthy e.docstring = true) :
    analyze_entity e = (analyze_docstring_completeness e).2 := by
  simp [analyze_entity, hpub, hds]

/-- C8: for every public entity whose short docstring has no parameter- or
return-section keyword, with at least one parameter and a truthy return type
other than the literal `None`, the detector's output for any entity list
containing it includes the three gaps missing_parameters, missing_returns
and unclear_description. -/
theorem completeness_three_gaps (entities : List CodeEntity) (e : CodeEntity)
    (he : e ∈ entities)
    (hpub : e.is_public = true)
    (hds : pyTruthy e.docstring = true)
    (hnoparam : hasAnyKeyword param_section_keywords (pyLower (e.docstring.getD [])) = false)
    (hnoret : hasAnyKeyword return_section_keywords (pyLower (e.docstring.getD [])) = false)
    (hshort : (pyStrip (e.docstring.getD [])).length < 20)
    (hparams : e.parameters ≠ [])
    (hrt : pyTruthy e.return_type = true)
    (hrtn : e.return_type.getD [] ≠ toPyStr "None") :
    DocumentationType.missing_parameters ∈
      (analyze_code_entities entities).map DocumentationGap.gap_type
    ∧ DocumentationType.missing_returns ∈
        (analyze_code_entities entities).map DocumentationGap.gap_type
    ∧ DocumentationType.unclear_description ∈
        (analyze_code_entities entities).map DocumentationGap.gap_type := by
  have hcomp : (analyze_docstring_completeness e).2 =
      [add_incomplete_gap e DocumentationType.missing_parameters
        (toPyStr "Parameters are not documented")] ++
      [add_incomplete_gap e DocumentationType.missing_returns
        (toPyStr "Return value is not documented")] ++
      (if pyTruthy e.signature = true ∧
          containsSub (toPyStr "raise") (pyLower (e.signature.getD [])) = true then
        if hasAnyKeyword exception_section_keywords (pyLower (e.docstring.getD [])) = false then
          [add_incomplete_gap e DocumentationType.missing_exceptions
            (toPyStr "Exceptions are not documented")]
        else []
      else []) ++
      [add_incomplete_gap e DocumentationType.unclear_description
        (toPyStr "Description is too brief to be helpful")] := by
    unfold analyze_docstring_completeness
    rw [if_neg (by simp [hds])]
    dsimp only
    rw [if_pos hparams, if_pos hnoparam, if_pos ⟨hrt, hrtn⟩, if_pos hnoret, if_pos hshort]
    simp [apply_ite Prod.snd]
  have hlift : ∀ t : DocumentationType,
      t ∈ (analyze_docstring_completeness e).2.map DocumentationGap.gap_type →
        t ∈ (analyze_code_entities entities).map DocumentationGap.gap_type := by
    intro t ht
    rw [analyze_code_entities_eq_flatMap]
    rw [List.mem_map] at ht ⊢
    obtain ⟨g, hgmem, rfl⟩ := ht
    refine ⟨g, List.mem_flatMap.mpr ⟨e, he, ?_⟩, rfl⟩
    rw [analyze_entity_of_docstring e hpub hds]
    exact hgmem
  refine ⟨hlift _ ?_, hlift _ ?_, hlift _ ?_⟩ <;>
    rw [hcomp] <;> simp [add_incomplete_gap, apply_ite (List.map DocumentationGap.gap_type)]

/-- C8 witness: the three-gap theorem applied to the spec's concrete example
entity. -/
theorem completeness_three_gaps_witness :
    DocumentationType.missing_parameters ∈
      (analyze_code_entities [witEntityShortDoc]).map DocumentationGap.gap_type
    ∧ DocumentationType.missing_returns ∈
        (analyze_code_entities [witEntityShortDoc]).map DocumentationGap.gap_type
    ∧ DocumentationType.unclear_description ∈
        (analyze_code_entities [witEntityShortDoc]).map DocumentationGap.gap_type :=
  completeness_three_gaps [witEntityShortDoc] witEntityShortDoc (by decide) (by decide)
    (by decide) (by decide) (by decide) (by decide) (by decide) (by decide) (by decide)

/-- C9: no run of the detector ever emits a missing_examples gap — the
usage-example check only records an internal issue string, which
`_analyze_docstring_completeness` then discards; the second conjunct shows
the check does fire into the issues list for an example-less public function
with parameters. -/
theorem no_missing_examples_gap (entities : List CodeEntity) :
    List.countP (fun g => decide (g.gap_type = DocumentationType.missing_examples))
      (analyze_code_entities entities) = 0
    ∧ ∀ e : CodeEntity, (e.type = toPyStr "function" ∨ e.type = toPyStr "method") →
        e.is_public = true → pyTruthy e.docstring = true →
        hasAnyKeyword example_section_keywords (pyLower (e.docstring.getD [])) = false →
        0 < e.parameters.length →
        toPyStr "missing usage examples" ∈ (analyze_docstring_completeness e).1 := by
  constructor
  · rw [List.countP_eq_zero]
    intro g hg
    rw [analyze_code_entities_eq_flatMap] at hg
    obtain ⟨e, -, hge⟩ := List.mem_flatMap.mp hg
    unfold analyze_entity at hge
    split_ifs at hge with h1 h2
    · simp at hge
    · simp only [List.mem_singleton] at hge
      subst hge
      simp [add_missing_docstring_gap]
    · obtain ⟨t, d, rfl, ht⟩ := mem_completeness_gaps e g hge
      simp only [List.mem_cons, List.not_mem_nil, or_false] at ht
      rcases ht with rfl | rfl | rfl | rfl <;> simp [add_incomplete_gap]
  · intro e htype hpub hds hkw hlen
    unfold analyze_docstring_completeness
    rw [if_neg (by simp [hds])]
    dsimp only
    simp only [apply_ite Prod.fst, List.mem_append]
    left; right
    rw [if_pos ⟨htype, hpub⟩, if_pos ⟨hkw, hlen⟩]
    simp

/-- C9 witness: the no-examples-gap theorem applied to a one-entity list
whose entity triggers the internal usage-example issue. -/
theorem no_missing_examples_gap_witness :
    List.countP (fun g => decide (g.gap_type = DocumentationType.missing_examples))
      (analyze_code_entities [witEntityNoExamples]) = 0
    ∧ toPyStr "missing usage examples" ∈
        (analyze_docstring_completeness witEntityNoExamples).1 :=
  ⟨(no_missing_examples_gap [witEntityNoExamples]).1,
   (no_missing_examples_gap [witEntityNoExamples]).2 witEntityNoExamples (Or.inl rfl) rfl
     (by decide) (by decide) (by decide)⟩

/-! ## C4: cache-key determinism and insensitivity -/

/-- C4: two separately constructed gaps agreeing on gap type, location, and
(when entities are present on both, or absent on both) on the entity's name,
signature, parameters and return type hash to the same cache key under one
`GenerationConfig` — the key ignores the gap's id, severity, description,
current documentation and context. -/
theorem cache_key_deterministic (config : GenerationConfig) (g1 g2 : DocumentationGap)
    (htype : g1.gap_type = g2.gap_type)
    (hloc : g1.location = g2.location)
    (hentity :
      match g1.entity, g2.entity with
      | none, none => True
      | some e1, some e2 =>
        e1.name = e2.name ∧ e1.signature = e2.signature ∧
        e1.parameters = e2.parameters ∧ e1.return_type = e2.return_type
      | _, _ => False) :
    generate_cache_key config g1 = generate_cache_key config g2 := by
  unfold generate_cache_key
  rw [htype, hloc]
  match h1 : g1.entity, h2 : g2.entity with
  | none, none => rfl
  | some e1, some e2 =>
    rw [h1, h2] at hentity
    obtain ⟨hn, hs, hp, hr⟩ := hentity
    dsimp only
    rw [hn, hs, hp, hr]
  | some e1, none => rw [h1, h2] at hentity; exact absurd hentity id
  | none, some e2 => rw [h1, h2] at hentity; exact absurd hentity id

/-- C4 witness: the determinism theorem applied to the two concrete gaps. -/
theorem cache_key_deterministic_witness :
    generate_cache_key {} witGapA = generate_cache_key {} witGapB :=
  cache_key_deterministic {} witGapA witGapB (by decide) (by decide)
    (by exact ⟨rfl, rfl, rfl, rfl⟩)

/-! ## C3 and C7: cache store -/

/-- A point read after a point delete of the same key misses. -/
theorem alistGet_alistDelete {β : Type} (k : PyStr) (st : List (PyStr × β)) :
    alistGet k (alistDelete k st) = none := by
  induction st with
  | nil => rfl
  | cons p rest ih =>
    obtain ⟨k2, row⟩ := p
    by_cases h : k2 = k
    · simpa [alistDelete, h] using ih
    · simp [alistDelete, alistGet, h, ih]

/-- A point read after an upsert of the same key returns the new row. -/
theorem alistGet_alistUpsert {β : Type} (k : PyStr) (row : β) (st : List (PyStr × β)) :
    alistGet k (alistUpsert k row st) = some row := by
  simp [alistUpsert, alistGet]

/-- C3: storing a value with a positive TTL and reading it back before the
expiry instant hits and returns the value unchanged; reading it after the
expiry instant misses and physically removes the row from the `api_cache`
table as a side effect. -/
theorem api_cache_roundtrip_and_expiry (cache_key value : PyStr) (ttl_hours t0 t1 : Int)
    (st : ApiCache) (metadata : Option PyStr) (hpos : 0 < ttl_hours) :
    ((t1 < t0 + ttl_hours * 3600 →
      (get_api_response t1 (set_api_response t0 st cache_key value ttl_hours metadata)
        cache_key).1 = some value)
    ∧ (t0 + ttl_hours * 3600 < t1 →
        (get_api_response t1 (set_api_response t0 st cache_key value ttl_hours metadata)
          cache_key).1 = none
        ∧ alistGet cache_key
            (get_api_response t1 (set_api_response t0 st cache_key value ttl_hours metadata)
              cache_key).2 = none)) := by
  constructor
  · intro hlt
    unfold get_api_response set_api_response
    rw [alistGet_alistUpsert]
    simp only
    rw [if_neg (by omega)]
  · intro hgt
    unfold get_api_response set_api_response
    rw [alistGet_alistUpsert]
    simp only
    rw [if_pos (by omega)]
    exact ⟨rfl, alistGet_alistDelete cache_key _⟩

/-- C3 witness: the round-trip theorem at a concrete key, value, 1-hour TTL
and concrete read instants on either side of the expiry. -/
theorem api_cache_roundtrip_and_expiry_witness :
    (get_api_response 1800 (set_api_response 0 [] (toPyStr "k") (toPyStr "v") 1 none)
      (toPyStr "k")).1 = some (toPyStr "v")
    ∧ ((get_api_response 7200 (set_api_response 0 [] (toPyStr "k") (toPyStr "v") 1 none)
        (toPyStr "k")).1 = none
      ∧ alistGet (toPyStr "k")
          (get_api_response 7200 (set_api_response 0 [] (toPyStr "k") (toPyStr "v") 1 none)
            (toPyStr "k")).2 = none) :=
  ⟨(api_cache_roundtrip_and_expiry (toPyStr "k") (toPyStr "v") 1 0 1800 [] none
      (by decide)).1 (by decide),
   (api_cache_roundtrip_and_expiry (toPyStr "k") (toPyStr "v") 1 0 7200 [] none
      (by decide)).2 (by decide)⟩

/-- C7: after `set_file_analysis` stores the entities with the SHA-256 hash
of the file's bytes, reading with unchanged bytes returns the stored
entities, while reading after the bytes changed (so that the recomputed
SHA-256 differs from the stored one, which is what the code compares)
misses and deletes the stale `analysis_cache` row. -/
theorem file_analysis_self_invalidation (file_path entities_json : PyStr)
    (bytes0 bytes1 : List Nat) (st : AnalysisCache)
    (hne : sha256hex bytes1 ≠ sha256hex bytes0) :
    ((get_file_analysis (some bytes0)
        (set_file_analysis (some bytes0) st file_path entities_json) file_path).1 =
      some entities_json
    ∧ (get_file_analysis (some bytes1)
        (set_file_analysis (some bytes0) st file_path entities_json) file_path).1 = none
    ∧ alistGet file_path
        (get_file_analysis (some bytes1)
          (set_file_analysis (some bytes0) st file_path entities_json) file_path).2 =
      none) := by
  unfold get_file_analysis set_file_analysis
  rw [alistGet_alistUpsert]
  refine ⟨?_, ?_, ?_⟩
  · simp
  · simp only
    rw [if_pos (Ne.symm hne)]
  · simp only
    rw [if_pos (Ne.symm hne)]
    exact alistGet_alistDelete file_path _

/-- C7 witness: the invalidation theorem at a concrete path, payload and two
concrete byte strings whose SHA-256 digests differ (checked by evaluation). -/
theorem file_analysis_self_invalidation_witness :
    ((get_file_analysis (some [])
        (set_file_analysis (some []) [] (toPyStr "a.py") (toPyStr "[]")) (toPyStr "a.py")).1 =
      some (toPyStr "[]")
    ∧ (get_file_analysis (some [0])
        (set_file_analysis (some []) [] (toPyStr "a.py") (toPyStr "[]")) (toPyStr "a.py")).1 =
      none
    ∧ alistGet (toPyStr "a.py")
        (get_file_analysis (some [0])
          (set_file_analysis (some []) [] (toPyStr "a.py") (toPyStr "[]"))
          (toPyStr "a.py")).2 = none) :=
  file_analysis_self_invalidation (toPyStr "a.py") (toPyStr "[]") [] [0] [] (by decide)

/-! ## C10: confidence bounds -/

/-- The confidence heuristic never goes below its base score of 0.5. -/
theorem le_pyMinQ (c a b : Rat) (h1 : c ≤ a) (h2 : c ≤ b) : c ≤ pyMinQ a b := by
  unfold pyMinQ
  split_ifs
  · exact h2
  · exact h1

/-- `pyMinQ` never exceeds its second argument. -/
theorem pyMinQ_le_right (a b : Rat) : pyMinQ a b ≤ b := by
  unfold pyMinQ
  split_ifs with h
  · exact le_refl b
  · exact not_lt.mp h

theorem calculate_confidence_lower (config : GenerationConfig) (documentation : PyStr)
    (gap : DocumentationGap) :
    1 / 2 ≤ calculate_confidence config documentation gap := by
  unfold calculate_confidence
  dsimp only
  refine le_pyMinQ _ _ _ ?_ (by norm_num)
  split_ifs <;> norm_num

/-- The confidence heuristic is capped at 1. -/
theorem calculate_confidence_upper (config : GenerationConfig) (documentation : PyStr)
    (gap : DocumentationGap) :
    calculate_confidence config documentation gap ≤ 1 := by
  unfold calculate_confidence
  dsimp only
  exact pyMinQ_le_right _ _

/-- Every improvement the generator emits carries a confidence score computed
by `_calculate_confidence`. -/
theorem mem_generate_improvements (client : DocumentationGap → Except PyStr (PyStr × PyStr))
    (mkDiff : PyStr → PyStr → PyStr) (config : GenerationConfig)
    (gaps : List DocumentationGap) (improvement : DocumentationImprovement)
    (hmem : improvement ∈ generate_improvements client mkDiff config gaps) :
    ∃ d g, improvement.confidence_score = calculate_confidence config d g := by
  unfold generate_improvements at hmem
  suffices H : ∀ (gs : List DocumentationGap) (acc : List DocumentationImprovement),
      (∀ i ∈ acc, ∃ d g, i.confidence_score = calculate_confidence config d g) →
      ∀ i ∈ gs.foldl (fun improvements gap =>
          match client gap with
          | Except.error _ => improvements
          | Except.ok (improved_doc, reasoning) =>
            let confidence := calculate_confidence config improved_doc gap
            let diff :=
              if pyTruthy gap.current_documentation = true then
                some (mkDiff (gap.current_documentation.getD []) improved_doc)
              else none
            improvements ++
              [{ gap_id := gap.id, gap := gap, improved_documentation := improved_doc,
                 diff := diff, confidence_score := confidence, reasoning := reasoning }]) acc,
        ∃ d g, i.confidence_score = calculate_confidence config d g by
    exact H gaps [] (by simp) improvement hmem
  intro gs
  induction gs with
  | nil => intro acc hacc i hi; exact hacc i hi
  | cons gap rest ih =>
    intro acc hacc i hi
    simp only [List.foldl_cons] at hi
    refine ih _ ?_ i hi
    intro j hj
    match hc : client gap with
    | Except.error e =>
      rw [hc] at hj
      exact hacc j hj
    | Except.ok (d0, r0) =>
      rw [hc] at hj
      simp only [List.mem_append, List.mem_singleton] at hj
      rcases hj with hj | rfl
      · exact hacc j hj
      · exact ⟨d0, gap, rfl⟩

/-- `apply_improvements` takes the skip branch exactly for improvements with
confidence below 0.5; when none qualifies, the skipped count stays zero. -/
theorem apply_improvements_no_skip (applyOk : DocumentationImprovement → Bool)
    (dry_run : Bool) (improvements : List DocumentationImprovement)
    (hconf : ∀ i ∈ improvements, ¬ i.confidence_score < 1 / 2) :
    (apply_improvements applyOk dry_run improvements).skipped = 0 := by
  unfold apply_improvements
  suffices H : ∀ (l : List DocumentationImprovement) (init : ApplyStats),
      (∀ i ∈ l, ¬ i.confidence_score < 1 / 2) →
      (l.foldl (fun stats improvement =>
        if improvement.confidence_score < 1 / 2 then
          { stats with skipped := stats.skipped + 1 }
        else if dry_run = true ∨ applyOk improvement = true then
          { stats with applied := stats.applied + 1 }
        else
          { stats with failed := stats.failed + 1 }) init).skipped = init.skipped by
    exact H improvements _ hconf
  intro l
  induction l with
  | nil => intro init h0; rfl
  | cons i rest ih =>
    intro init h0
    simp only [List.foldl_cons]
    rw [if_neg (h0 i (by simp))]
    split_ifs with hd
    · simpa using ih _ (fun j hj => h0 j (by simp [hj]))
    · simpa using ih _ (fun j hj => h0 j (by simp [hj]))

/-- C10: `_calculate_confidence` always lands in [0.5, 1]; hence every
improvement the generator produces has confidence at least 0.5, and the
low-confidence skip branch of `apply_improvements` is unreachable on
generator output (its skipped count is always zero). -/
theorem confidence_floor_contract (config : GenerationConfig) :
    (∀ (documentation : PyStr) (gap : DocumentationGap),
      1 / 2 ≤ calculate_confidence config documentation gap
        ∧ calculate_confidence config documentation gap ≤ 1)
    ∧ (∀ (client : DocumentationGap → Except PyStr (PyStr × PyStr))
        (mkDiff : PyStr → PyStr → PyStr) (gaps : List DocumentationGap)
        (improvement : DocumentationImprovement),
        improvement ∈ generate_improvements client mkDiff config gaps →
        1 / 2 ≤ improvement.confidence_score)
    ∧ (∀ (client : DocumentationGap → Except PyStr (PyStr × PyStr))
        (mkDiff : PyStr → PyStr → PyStr) (gaps : List DocumentationGap)
        (applyOk : DocumentationImprovement → Bool) (dry_run : Bool),
        (apply_improvements applyOk dry_run
          (generate_improvements client mkDiff config gaps)).skipped = 0) := by
  have hfloor : ∀ (client : DocumentationGap → Except PyStr (PyStr × PyStr))
      (mkDiff : PyStr → PyStr → PyStr) (gaps : List DocumentationGap)
      (improvement : DocumentationImprovement),
      improvement ∈ generate_improvements client mkDiff config gaps →
      1 / 2 ≤ improvement.confidence_score := by
    intro client mkDiff gaps improvement hmem
    obtain ⟨d, g, heq⟩ := mem_generate_improvements client mkDiff config gaps improvement hmem
    rw [heq]
    exact calculate_confidence_lower config d g
  refine ⟨fun d g => ⟨calculate_confidence_lower config d g,
    calculate_confidence_upper config d g⟩, hfloor, ?_⟩
  intro client mkDiff gaps applyOk dry_run
  exact apply_improvements_no_skip applyOk dry_run _
    (fun i hi => not_lt.mpr (hfloor client mkDiff gaps i hi))

/-- Running the generator on the witness inputs produces exactly the witness
improvement. -/
theorem generate_improvements_witness_eq :
    generate_improvements witClient (fun _ _ => []) {} [witGapForGen] = [witImprovement] :=
  rfl

/-- C10 witness: the contract applied to a concrete config, client, gap list
and generated improvement. -/
theorem confidence_floor_contract_witness :
    (1 / 2 ≤ calculate_confidence {} (toPyStr "Adds two numbers.") witGapForGen
      ∧ calculate_confidence {} (toPyStr "Adds two numbers.") witGapForGen ≤ 1)
    ∧ 1 / 2 ≤ witImprovement.confidence_score
    ∧ (apply_improvements (fun _ => true) true
        (generate_improvements witClient (fun _ _ => []) {} [witGapForGen])).skipped = 0 :=
  ⟨(confidence_floor_contract {}).1 (toPyStr "Adds two numbers.") witGapForGen,
   (confidence_floor_contract {}).2.1 witClient (fun _ _ => []) [witGapForGen]
     witImprovement
     (by rw [generate_improvements_witness_eq]; exact List.mem_singleton.mpr rfl),
   (confidence_floor_contract {}).2.2 witClient (fun _ _ => []) [witGapForGen]
     (fun _ => true) true⟩

/-! ## C5 and C6: batch orchestrator -/

/-- Every task index produced from start index `start` is at least `start`. -/
theorem build_tasks_key_ge (gen : DocumentationGap → Except PyStr (PyStr × PyStr)) :
    ∀ (gaps : List DocumentationGap) (start : Nat) (p : Nat × (PyStr × PyStr)),
      p ∈ build_tasks gen start gaps → start ≤ p.1 := by
  intro gaps
  induction gaps with
  | nil => intro start p hp; simp [build_tasks] at hp
  | cons g rest ih =>
    intro start p hp
    simp only [build_tasks, List.mem_cons] at hp
    rcases hp with rfl | hp
    · exact le_refl start
    · exact Nat.le_of_succ_le (ih (start + 1) p hp)

/-- The spawned task list is sorted by its indices. -/
theorem build_tasks_sorted (gen : DocumentationGap → Except PyStr (PyStr × PyStr)) :
    ∀ (gaps : List DocumentationGap) (start : Nat),
      List.Sorted leFst (build_tasks gen start gaps) := by
  intro gaps
  induction gaps with
  | nil => intro start; simp [build_tasks]
  | cons g rest ih =>
    intro start
    rw [build_tasks, List.sorted_cons]
    refine ⟨fun p hp => ?_, ih (start + 1)⟩
    exact Nat.le_of_succ_le (build_tasks_key_ge gen rest (start + 1) p hp)

/-- The task indices are pairwise distinct. -/
theorem build_tasks_fst_nodup (gen : DocumentationGap → Except PyStr (PyStr × PyStr)) :
    ∀ (gaps : List DocumentationGap) (start : Nat),
      ((build_tasks gen start gaps).map Prod.fst).Nodup := by
  intro gaps
  induction gaps with
  | nil => intro start; simp [build_tasks]
  | cons g rest ih =>
    intro start
    rw [build_tasks, List.map_cons, List.nodup_cons]
    refine ⟨fun hmem => ?_, ih (start + 1)⟩
    obtain ⟨p, hp, hfst⟩ := List.mem_map.mp hmem
    have := build_tasks_key_ge gen rest (start + 1) p hp
    have hps : (process_gap gen g start).1 = start := rfl
    omega

/-- One task is spawned per gap. -/
theorem build_tasks_length (gen : DocumentationGap → Except PyStr (PyStr × PyStr)) :
    ∀ (gaps : List DocumentationGap) (start : Nat),
      (build_tasks gen start gaps).length = gaps.length := by
  intro gaps
  induction gaps with
  | nil => intro start; rfl
  | cons g rest ih => intro start; simp [build_tasks, ih]

/-- The `i`-th spawned task processes the `i`-th gap under index `start + i`. -/
theorem build_tasks_getElem? (gen : DocumentationGap → Except PyStr (PyStr × PyStr)) :
    ∀ (gaps : List DocumentationGap) (start i : Nat) (g : DocumentationGap),
      gaps[i]? = some g →
      (build_tasks gen start gaps)[i]? = some (process_gap gen g (start + i)) := by
  intro gaps
  induction gaps with
  | nil => intro start i g hg; simp at hg
  | cons g0 rest ih =>
    intro start i g hg
    cases i with
    | zero =>
      simp only [List.getElem?_cons_zero, Option.some.injEq] at hg
      subst hg
      simp [build_tasks]
    | succ i =>
      simp only [List.getElem?_cons_succ] at hg
      rw [build_tasks, List.getElem?_cons_succ, ih (start + 1) i g hg]
      have harith : start + 1 + i = start + (i + 1) := by omega
      rw [harith]

/-- A permutation of a list sorted by pairwise-distinct indices, itself
sorted, is that list: sorting undoes any completion order. -/
theorem eq_of_perm_sorted_nodup {β : Type} :
    ∀ (l1 l2 : List (Nat × β)), l1.Perm l2 → List.Sorted leFst l1 → List.Sorted leFst l2 →
      (l2.map Prod.fst).Nodup → l1 = l2 := by
  intro l1
  induction l1 with
  | nil =>
    intro l2 hp _ _ _
    exact hp.nil_eq
  | cons a t1 ih =>
    intro l2 hp hs1 hs2 hn
    cases l2 with
    | nil => exact absurd hp.symm.nil_eq (by simp)
    | cons b t2 =>
      have hab : a = b := by
        by_contra hne
        have hamem : a ∈ b :: t2 := hp.subset (List.mem_cons_self a t1)
        have hbmem : b ∈ a :: t1 := hp.symm.subset (List.mem_cons_self b t2)
        have ha2 : a ∈ t2 := by
          rcases List.mem_cons.mp hamem with h | h
          · exact absurd h hne
          · exact h
        have hb1 : b ∈ t1 := by
          rcases List.mem_cons.mp hbmem with h | h
          · exact absurd h.symm hne
          · exact h
        have h1 : leFst a b := (List.sorted_cons.mp hs1).1 b hb1
        have h2 : leFst b a := (List.sorted_cons.mp hs2).1 a ha2
        have heq : a.1 = b.1 := Nat.le_antisymm h1 h2
        rw [List.map_cons, List.nodup_cons] at hn
        exact hn.1 (heq ▸ List.mem_map.mpr ⟨a, ha2, rfl⟩)
      subst hab
      have ht : t1.Perm t2 := hp.cons_inv
      rw [List.map_cons, List.nodup_cons] at hn
      rw [ih t2 ht (List.sorted_cons.mp hs1).2 (List.sorted_cons.mp hs2).2 hn.2]

/-- Sorting any completion-order permutation of the spawned tasks by index
recovers the task list itself, so the batch output is the per-gap results in
input order. -/
theorem collect_batch_results_eq (gen : DocumentationGap → Except PyStr (PyStr × PyStr))
    (gaps : List DocumentationGap) (completed : List (Nat × (PyStr × PyStr)))
    (hperm : completed.Perm (build_tasks gen 0 gaps)) :
    collect_batch_results completed = (build_tasks gen 0 gaps).map Prod.snd := by
  unfold collect_batch_results
  rw [eq_of_perm_sorted_nodup (List.insertionSort leFst completed) (build_tasks gen 0 gaps)
    ((List.perm_insertionSort leFst completed).trans hperm)
    (List.sorted_insertionSort leFst completed)
    (build_tasks_sorted gen gaps 0)
    (build_tasks_fst_nodup gen gaps 0)]

/-- C5: for any completion order (any permutation of the spawned tasks'
results), the batch returns exactly one result per gap, and its `i`-th entry
is the result produced for the `i`-th gap, so callers can zip positionally. -/
theorem batch_preserves_order (gen : DocumentationGap → Except PyStr (PyStr × PyStr))
    (gaps : List DocumentationGap) (completed : List (Nat × (PyStr × PyStr)))
    (hperm : completed.Perm (build_tasks gen 0 gaps)) :
    (collect_batch_results completed).length = gaps.length
    ∧ ∀ (i : Nat) (g : DocumentationGap), gaps[i]? = some g →
        (collect_batch_results completed)[i]? = some (process_gap gen g i).2 := by
  rw [collect_batch_results_eq gen gaps completed hperm]
  constructor
  · rw [List.length_map, build_tasks_length]
  · intro i g hg
    rw [List.getElem?_map, build_tasks_getElem? gen gaps 0 i g hg]
    rfl

/-- C5 witness: ordering theorem applied to the three-gap batch completed in
reverse order. -/
theorem batch_preserves_order_witness :
    (collect_batch_results witCompleted).length = witGaps.length
    ∧ (collect_batch_results witCompleted)[0]? = some (process_gap witGen (mkWitGap "g0") 0).2 :=
  ⟨(batch_preserves_order witGen witGaps witCompleted
      ((build_tasks witGen 0 witGaps).reverse_perm)).1,
   (batch_preserves_order witGen witGaps witCompleted
      ((build_tasks witGen 0 witGaps).reverse_perm)).2 0 (mkWitGap "g0") (by decide)⟩

/-- C6: an individual failure does not abort the batch — for any completion
order, the failed gap's slot holds the placeholder `("", "Error: " + message)`
and every successfully generated gap's slot holds its normal result. -/
theorem batch_failure_tolerance (gen : DocumentationGap → Except PyStr (PyStr × PyStr))
    (gaps : List DocumentationGap) (completed : List (Nat × (PyStr × PyStr)))
    (hperm : completed.Perm (build_tasks gen 0 gaps))
    (j : Nat) (gj : DocumentationGap) (msg : PyStr)
    (hj : gaps[j]? = some gj) (herr : gen gj = Except.error msg) :
    (collect_batch_results completed)[j]? = some ([], toPyStr "Error: " ++ msg)
    ∧ ∀ (i : Nat) (gi : DocumentationGap) (r : PyStr × PyStr),
        gaps[i]? = some gi → gen gi = Except.ok r →
        (collect_batch_results completed)[i]? = some r := by
  rw [collect_batch_results_eq gen gaps completed hperm]
  constructor
  · rw [List.getElem?_map, build_tasks_getElem? gen gaps 0 j gj hj]
    simp [process_gap, herr]
  · intro i gi r hi hok
    rw [List.getElem?_map, build_tasks_getElem? gen gaps 0 i gi hi]
    simp [process_gap, hok]

/-- C6 witness: failure-tolerance theorem applied to a batch whose middle gap
fails, completed in reverse order. -/
theorem batch_failure_tolerance_witness :
    (collect_batch_results witCompletedB)[1]? =
      some ([], toPyStr "Error: " ++ toPyStr "timeout")
    ∧ (collect_batch_results witCompletedB)[0]? = some (toPyStr "f0", toPyStr "ok") :=
  ⟨(batch_failure_tolerance witGenB witGapsB witCompletedB
      ((build_tasks witGenB 0 witGapsB).reverse_perm) 1 (mkWitGap "f1") (toPyStr "timeout")
      (by decide) (by decide)).1,
   (batch_failure_tolerance witGenB witGapsB witCompletedB
      ((build_tasks witGenB 0 witGapsB).reverse_perm) 1 (mkWitGap "f1") (toPyStr "timeout")
      (by decide) (by decide)).2 0 (mkWitGap "f0") (toPyStr "f0", toPyStr "ok")
      (by decide) (by decide)⟩

end DocImprover

